import Mathlib

/-!
Shallow embedding of the `time` crate's formatting core
(`src/time/src/formatting/formattable.rs` and
`src/time/src/format_description/component.rs`).

The output sink is modelled as an accumulated `String` (the engine only
emits ASCII, so characters coincide with bytes); every formatting
operation returns `Except error.Format (Nat × String)` — the byte count
computed by the code's own summation together with the bytes written.
The sink-failure path (`io::Error`) is not modelled: the pure sink never
fails.
-/

namespace TimeSpec

/-- The calendar value as observed by the formatting core. The calendar
arithmetic that computes these fields (`Date::year`, `Date::month`,
`Date::day`, `Date::weekday().number_days_from_monday()`) lives in the
excluded calendar layer, so a date is embedded as the record of those
observations. `weekdayFromMonday` models `date.weekday().number_days_from_monday()`. -/
structure Date where
  year : Int
  month : Nat
  day : Nat
  weekdayFromMonday : Nat
deriving DecidableEq

/-- The time-of-day value as observed by the formatting core
(`Time::hour`, `Time::minute`, `Time::second`, `Time::nanosecond`). -/
structure Time where
  hour : Nat
  minute : Nat
  second : Nat
  nanosecond : Nat
deriving DecidableEq

/-- A UTC offset, stored as in the crate as whole hours, minutes past the
hour and seconds past the minute (all carrying the sign). -/
structure UtcOffset where
  hours : Int
  minutes : Int
  seconds : Int
deriving DecidableEq

/-- `UtcOffset::UTC`. -/
def UtcOffset.UTC : UtcOffset := ⟨0, 0, 0⟩

/-- `UtcOffset::whole_hours`. -/
def UtcOffset.whole_hours (o : UtcOffset) : Int := o.hours

/-- `UtcOffset::minutes_past_hour`. -/
def UtcOffset.minutes_past_hour (o : UtcOffset) : Int := o.minutes

/-- `UtcOffset::seconds_past_minute`. -/
def UtcOffset.seconds_past_minute (o : UtcOffset) : Int := o.seconds

/-- `UtcOffset::is_utc`: the offset is exactly zero. -/
def UtcOffset.is_utc (o : UtcOffset) : Bool :=
  o.hours == 0 && o.minutes == 0 && o.seconds == 0

/-- `UtcOffset::is_negative`: some stored field is negative. -/
def UtcOffset.is_negative (o : UtcOffset) : Bool :=
  o.hours < 0 || o.minutes < 0 || o.seconds < 0

/-- Modelled from the spec: the digit-count policy for fractional seconds
(`modifier::SubsecondDigits`; `modifier.rs` is not among the repository's
staged files). A fixed count of one through nine digits, or the
"one-or-more" mode. -/
inductive SubsecondDigits where
  | One
  | Two
  | Three
  | Four
  | Five
  | Six
  | Seven
  | Eight
  | Nine
  | OneOrMore
deriving DecidableEq

/-- Modelled from the spec: `SubsecondDigits::as_format_repr` maps a
nanosecond value to the pair (digit width, value to print). A fixed
policy keeps its width and truncates the nanoseconds to it; the
one-or-more policy picks the minimal width in 1..9 that represents the
nanosecond value exactly, with trailing zeros trimmed. -/
def SubsecondDigits.as_format_repr : SubsecondDigits → Nat → Nat × Nat
  | .One, ns => (1, ns / 100000000)
  | .Two, ns => (2, ns / 10000000)
  | .Three, ns => (3, ns / 1000000)
  | .Four, ns => (4, ns / 100000)
  | .Five, ns => (5, ns / 10000)
  | .Six, ns => (6, ns / 1000)
  | .Seven, ns => (7, ns / 100)
  | .Eight, ns => (8, ns / 10)
  | .Nine, ns => (9, ns)
  | .OneOrMore, ns =>
    if ns % 100000000 == 0 then (1, ns / 100000000)
    else if ns % 10000000 == 0 then (2, ns / 10000000)
    else if ns % 1000000 == 0 then (3, ns / 1000000)
    else if ns % 100000 == 0 then (4, ns / 100000)
    else if ns % 10000 == 0 then (5, ns / 10000)
    else if ns % 1000 == 0 then (6, ns / 1000)
    else if ns % 100 == 0 then (7, ns / 100)
    else if ns % 10 == 0 then (8, ns / 10)
    else (9, ns)

/-- `modifier::Subsecond`: the one modifier whose content the embedded
code consults (`component.rs` reads `s.digits`). -/
structure modifier.Subsecond where
  digits : SubsecondDigits
deriving DecidableEq

/-- `Component` (`src/time/src/format_description/component.rs`). Each
variant carries a modifier in the source; the modifiers live in the
excluded `modifier.rs` and, except for `Subsecond.digits`, are never read
by the embedded operations, so only that payload is carried here. -/
inductive Component where
  | Day
  | Month
  | Ordinal
  | Weekday
  | WeekNumber
  | Year
  | Hour
  | Minute
  | Period
  | Second
  | Subsecond (modifier : modifier.Subsecond)
  | OffsetHour
  | OffsetMinute
  | OffsetSecond
  | Ignore
  | UnixTimestamp
deriving DecidableEq

/-- `Component::fmt_ignore`: whether the component can be ignored when
formatting an optional value (`component.rs`, lines 45-71). -/
def Component.fmt_ignore (c : Component) (_date : Option Date) (time : Option Time)
    (offset : Option UtcOffset) : Bool :=
  match c with
  | .Day | .Month | .Ordinal | .Weekday | .WeekNumber | .Year | .Hour | .Minute
  | .Period | .Ignore | .UnixTimestamp => false
  | .Second => (time.map fun t => t.second == 0).getD true
  | .Subsecond s =>
    (time.map fun t => (s.digits.as_format_repr t.nanosecond).2 == 0).getD true
  | .OffsetHour => (offset.map fun t => t.is_utc).getD true
  | .OffsetMinute => (offset.map fun t => t.minutes_past_hour == 0).getD true
  | .OffsetSecond => (offset.map fun t => t.seconds_past_minute == 0).getD true

/-- `error::Format`. The `StdIo` variant's payload (an `io::Error`) is
external and never produced by the pure sink, so it is carried without
payload. -/
inductive error.Format where
  | InsufficientTypeInformation
  | InvalidComponent (component : String)
  | StdIo
deriving DecidableEq

/-- `FormatItem` (`format_description/mod.rs`): literal byte run,
component, compound, optional subtree, or first-match alternatives.
Literal bytes are ASCII and modelled as a `String`. -/
inductive FormatItem where
  | Literal (bytes : String)
  | Component (component : Component)
  | Compound (items : List FormatItem)
  | Optional (item : FormatItem)
  | First (items : List FormatItem)

/-- `OwnedFormatItem`: the owned variant of the tree; structurally the
same shape with boxes in place of borrows. -/
inductive OwnedFormatItem where
  | Literal (bytes : String)
  | Component (component : Component)
  | Compound (items : List OwnedFormatItem)
  | Optional (item : OwnedFormatItem)
  | First (items : List OwnedFormatItem)

mutual

/-- `FormatItem::fmt_ignore` (`formattable.rs`, lines 72-85). Note that
both the `Compound` and the `First` arms delegate to the slice
implementation. -/
def FormatItem.fmt_ignore : FormatItem → Option Date → Option Time → Option UtcOffset → Bool
  | .Literal _, _, _, _ => true
  | .Component c, date, time, offset => c.fmt_ignore date time offset
  | .Compound items, date, time, offset => fmt_ignore_slice items date time offset
  | .Optional item, date, time, offset => item.fmt_ignore date time offset
  | .First items, date, time, offset => fmt_ignore_slice items date time offset

/-- `<[FormatItem]>::fmt_ignore` (`formattable.rs`, lines 115-122):
`self.iter().all(|i| i.fmt_ignore(date, time, offset))`. -/
def fmt_ignore_slice : List FormatItem → Option Date → Option Time → Option UtcOffset → Bool
  | [], _, _, _ => true
  | i :: rest, date, time, offset =>
    i.fmt_ignore date time offset && fmt_ignore_slice rest date time offset

end

mutual

/-- `OwnedFormatItem::fmt_ignore` (`formattable.rs`, lines 145-158). -/
def OwnedFormatItem.fmt_ignore : OwnedFormatItem → Option Date → Option Time → Option UtcOffset → Bool
  | .Literal _, _, _, _ => true
  | .Component c, date, time, offset => c.fmt_ignore date time offset
  | .Compound items, date, time, offset => owned_fmt_ignore_slice items date time offset
  | .Optional item, date, time, offset => item.fmt_ignore date time offset
  | .First items, date, time, offset => owned_fmt_ignore_slice items date time offset

/-- `<[OwnedFormatItem]>::fmt_ignore` (`formattable.rs`, lines 188-195). -/
def owned_fmt_ignore_slice : List OwnedFormatItem → Option Date → Option Time → Option UtcOffset → Bool
  | [], _, _, _ => true
  | i :: rest, date, time, offset =>
    i.fmt_ignore date time offset && owned_fmt_ignore_slice rest date time offset

end

/-- `formatting::write`: append the bytes to the sink and report how many
were written. The pure sink never fails, so the result is the pair
(byte count, bytes). -/
def write (bytes : String) : Nat × String := (bytes.length, bytes)

/-- `formatting::format_number_pad_zero::<W>`: the value as decimal
digits, left-padded with the zero character to `W` digits. Values that
need more than `W` digits are out of contract at every call site. -/
def format_number_pad_zero (width : Nat) (value : Nat) : Nat × String :=
  let digits := Nat.repr value
  let s := String.mk (List.replicate (width - digits.length) '0') ++ digits
  (s.length, s)

/-- The running `bytes += part` accumulation into the single sink: sums
the byte counts and concatenates the bytes, in order. -/
def emit (parts : List (Nat × String)) : Nat × String :=
  parts.foldl (fun acc p => (acc.1 + p.1, acc.2 ++ p.2)) (0, "")

/-- `.ok_or(error::Format::InsufficientTypeInformation)?` on a projection
slot. -/
def getOrInsufficient : Option α → Except error.Format α
  | some v => .ok v
  | none => .error .InsufficientTypeInformation

mutual

/-- `FormatItem::format_into` (`formattable.rs`, lines 87-111).
`fmtComp` stands for the external `formatting::format_component`
renderer, which is not among the staged files; the evaluator is
parametric in it. -/
def FormatItem.format_into
    (fmtComp : Component → Option Date → Option Time → Option UtcOffset →
      Except error.Format (Nat × String))
    (item : FormatItem) (optional : Bool) (date : Option Date) (time : Option Time)
    (offset : Option UtcOffset) : Except error.Format (Nat × String) :=
  if optional && item.fmt_ignore date time offset then .ok (0, "")
  else
    match item with
    | .Literal literal => .ok (write literal)
    | .Component component => fmtComp component date time offset
    | .Compound items =>
      -- `items.format_into(output, false, ...)`: with `optional = false`
      -- the slice entry point's suppression check is vacuous, so this is
      -- its item loop (see `format_into_slice` below, equal to this call
      -- at `false` by definitional unfolding).
      format_into_items fmtComp items date time offset
    | .Optional item => item.format_into fmtComp true date time offset
    | .First [] => .ok (0, "")
    | .First (item :: _) => item.format_into fmtComp false date time offset

/-- The loop of `<[FormatItem]>::format_into` (`formattable.rs`, lines
136-140): each item evaluated with `optional = false`, byte counts
summed, failing fast on the first error. -/
def format_into_items
    (fmtComp : Component → Option Date → Option Time → Option UtcOffset →
      Except error.Format (Nat × String)) :
    List FormatItem → Option Date → Option Time → Option UtcOffset →
      Except error.Format (Nat × String)
  | [], _, _, _ => .ok (0, "")
  | item :: rest, date, time, offset => do
    let (b, s) ← item.format_into fmtComp false date time offset
    let (bs, ss) ← format_into_items fmtComp rest date time offset
    .ok (b + bs, s ++ ss)

end

/-- `<[FormatItem]>::format_into` (`formattable.rs`, lines 124-141): the
suppression check at the slice boundary, then the item loop. -/
def format_into_slice
    (fmtComp : Component → Option Date → Option Time → Option UtcOffset →
      Except error.Format (Nat × String))
    (items : List FormatItem) (optional : Bool) (date : Option Date) (time : Option Time)
    (offset : Option UtcOffset) : Except error.Format (Nat × String) :=
  if optional && fmt_ignore_slice items date time offset then .ok (0, "")
  else format_into_items fmtComp items date time offset

/-- Modelled from the spec: the fixed English weekday table
(`formatting::WEEKDAY_NAMES`, not among the staged files), indexed by
`number_days_from_monday`. -/
def WEEKDAY_NAMES : List String :=
  ["Monday", "Tuesday", "Wednesday", "Thursday", "Friday", "Saturday", "Sunday"]

/-- Modelled from the spec: the fixed English month table
(`formatting::MONTH_NAMES`, not among the staged files), indexed by
month number minus one. -/
def MONTH_NAMES : List String :=
  ["January", "February", "March", "April", "May", "June", "July", "August",
   "September", "October", "November", "December"]

/-- `Date::to_calendar_date`: the (year, month, day) triple. -/
def Date.to_calendar_date (d : Date) : Int × Nat × Nat := (d.year, d.month, d.day)

/-- `Rfc2822::format_into` (`formattable.rs`, lines 257-302). -/
def Rfc2822.format_into (date : Option Date) (time : Option Time)
    (offset : Option UtcOffset) : Except error.Format (Nat × String) := do
  let date ← getOrInsufficient date
  let time ← getOrInsufficient time
  let offset ← getOrInsufficient offset
  let (year, month, day) := date.to_calendar_date
  if year < 1900 then
    throw (error.Format.InvalidComponent "year")
  else if offset.seconds_past_minute ≠ 0 then
    throw (error.Format.InvalidComponent "offset_second")
  else
    pure (emit
      [write ((WEEKDAY_NAMES.getD date.weekdayFromMonday "").take 3),
       write ", ",
       format_number_pad_zero 2 day,
       write " ",
       write ((MONTH_NAMES.getD (month - 1) "").take 3),
       write " ",
       format_number_pad_zero 4 year.toNat,
       write " ",
       format_number_pad_zero 2 time.hour,
       write ":",
       format_number_pad_zero 2 time.minute,
       write ":",
       format_number_pad_zero 2 time.second,
       write " ",
       write (if offset.is_negative then "-" else "+"),
       format_number_pad_zero 2 offset.whole_hours.natAbs,
       format_number_pad_zero 2 offset.minutes_past_hour.natAbs])

/-- `Rfc3339::format_into` (`formattable.rs`, lines 315-382). -/
def Rfc3339.format_into (date : Option Date) (time : Option Time)
    (offset : Option UtcOffset) : Except error.Format (Nat × String) := do
  let date ← getOrInsufficient date
  let time ← getOrInsufficient time
  let offset ← getOrInsufficient offset
  let year := date.year
  if ¬(0 ≤ year ∧ year < 10000) then
    throw (error.Format.InvalidComponent "year")
  else if offset.seconds_past_minute ≠ 0 then
    throw (error.Format.InvalidComponent "offset_second")
  else
    let main := emit
      [format_number_pad_zero 4 year.toNat,
       write "-",
       format_number_pad_zero 2 date.month,
       write "-",
       format_number_pad_zero 2 date.day,
       write "T",
       format_number_pad_zero 2 time.hour,
       write ":",
       format_number_pad_zero 2 time.minute,
       write ":",
       format_number_pad_zero 2 time.second]
    let frac :=
      if time.nanosecond ≠ 0 then
        let (width, val) := SubsecondDigits.OneOrMore.as_format_repr time.nanosecond
        emit [write ".", format_number_pad_zero width val]
      else (0, "")
    if offset = UtcOffset.UTC then
      pure (emit [main, frac, write "Z"])
    else
      pure (emit
        [main, frac,
         write (if offset.is_negative then "-" else "+"),
         format_number_pad_zero 2 offset.whole_hours.natAbs,
         write ":",
         format_number_pad_zero 2 offset.minutes_past_hour.natAbs])

/-- `Rfc2822::fmt_ignore` (`formattable.rs`, lines 248-255). -/
def Rfc2822.fmt_ignore (_date : Option Date) (_time : Option Time)
    (_offset : Option UtcOffset) : Bool := false

/-- `Rfc3339::fmt_ignore` (`formattable.rs`, lines 306-313). -/
def Rfc3339.fmt_ignore (_date : Option Date) (_time : Option Time)
    (_offset : Option UtcOffset) : Bool := false

/-- The three emission flags that `Iso8601::<CONFIG>::format_into`
consults: the decoded view of the bit-packed `EncodedConfig`
(`FORMAT_DATE`, `FORMAT_TIME`, `FORMAT_OFFSET`). -/
structure Iso8601Config where
  format_date : Bool
  format_time : Bool
  format_offset : Bool
deriving DecidableEq

/-- `Iso8601::<CONFIG>::fmt_ignore` (`formattable.rs`, lines 386-393),
for every configuration. -/
def Iso8601.fmt_ignore (_config : Iso8601Config) (_date : Option Date)
    (_time : Option Time) (_offset : Option UtcOffset) : Bool := false

/-- The body of `Iso8601::<CONFIG>::format_into` before its final
zero-byte check (`formattable.rs`, lines 403-416): each enabled part
requires its slot and is rendered by the external
`iso8601::format_date` / `format_time` / `format_offset` sub-routines
(not among the staged files), in which the function is parametric. -/
def Iso8601.run
    (fmtDate : Date → Except error.Format (Nat × String))
    (fmtTime : Time → Except error.Format (Nat × String))
    (fmtOffset : UtcOffset → Except error.Format (Nat × String))
    (config : Iso8601Config) (date : Option Date) (time : Option Time)
    (offset : Option UtcOffset) : Except error.Format (Nat × String) := do
  let (b1, s1) ←
    if config.format_date then do
      let date ← getOrInsufficient date
      fmtDate date
    else pure (0, "")
  let (b2, s2) ←
    if config.format_time then do
      let time ← getOrInsufficient time
      fmtTime time
    else pure (0, "")
  let (b3, s3) ←
    if config.format_offset then do
      let offset ← getOrInsufficient offset
      fmtOffset offset
    else pure (0, "")
  pure (b1 + b2 + b3, s1 ++ s2 ++ s3)

/-- The outcome of a call that may panic instead of returning. -/
inductive PanicOr (α : Type) where
  | panicked (msg : String)
  | value (val : α)
deriving DecidableEq

/-- `Iso8601::<CONFIG>::format_into` (`formattable.rs`, lines 395-425):
the body above, then the zero-byte check that panics on a parsing-only
configuration. -/
def Iso8601.format_into
    (fmtDate : Date → Except error.Format (Nat × String))
    (fmtTime : Time → Except error.Format (Nat × String))
    (fmtOffset : UtcOffset → Except error.Format (Nat × String))
    (config : Iso8601Config) (date : Option Date) (time : Option Time)
    (offset : Option UtcOffset) : PanicOr (Except error.Format (Nat × String)) :=
  match Iso8601.run fmtDate fmtTime fmtOffset config date time offset with
  | .ok (0, _) => .panicked "attempted to format a parsing-only format description"
  | r => .value r

/-! Helper lemmas shared by the claim theorems. -/

/-- Binding a successful `Except` computation applies the continuation. -/
theorem exc_ok_bind (a : α) (f : α → Except ε β) : (Except.ok a >>= f) = f a := rfl

/-- Once an item is known not to be ignorable, the suppressible and the
non-suppressible evaluations coincide: the early return is not taken and
the remaining body does not read the flag. -/
theorem format_into_true_eq (fmtComp : Component → Option Date → Option Time →
      Option UtcOffset → Except error.Format (Nat × String))
    (item : FormatItem) (d : Option Date) (t : Option Time)
    (o : Option UtcOffset) (h : item.fmt_ignore d t o = false) :
    item.format_into fmtComp true d t o = item.format_into fmtComp false d t o := by
  rw [FormatItem.format_into.eq_def, FormatItem.format_into.eq_def, h]
  simp

/-- The slice ignorability predicate is the conjunction over the elements. -/
theorem fmt_ignore_slice_eq_all (items : List FormatItem) (d : Option Date) (t : Option Time)
    (o : Option UtcOffset) :
    fmt_ignore_slice items d t o = items.all fun i => i.fmt_ignore d t o := by
  induction items with
  | nil => rfl
  | cons i rest ih => rw [fmt_ignore_slice, List.all_cons, ih]

/-! The claim theorems. -/

/-- C1 (optional suppression law): for every format item, projection and
component renderer, evaluating `Optional(item)` yields exactly
`Ok (0, "")` when the item is ignorable under the projection, and exactly
the result (bytes, count, or error) of evaluating the item directly with
`suppressible = false` otherwise. -/
theorem optional_suppression_law
    (fmtComp : Component → Option Date → Option Time → Option UtcOffset →
      Except error.Format (Nat × String))
    (item : FormatItem) (d : Option Date) (t : Option Time) (o : Option UtcOffset) :
    FormatItem.format_into fmtComp (.Optional item) false d t o =
      if item.fmt_ignore d t o then .ok (0, "") else item.format_into fmtComp false d t o := by
  rw [FormatItem.format_into.eq_def]
  simp only [Bool.false_and, Bool.false_eq_true, if_false]
  cases h : item.fmt_ignore d t o with
  | true =>
    rw [FormatItem.format_into.eq_def, h]
    simp
  | false => simp [format_into_true_eq fmtComp item d t o h]

/-- C2 counterexample: the ignorability predicate on a literal is `true`
at the concrete literal "a" under the empty projection, for both the
borrowed and the owned tree, refuting the claim that it is `false` for
every literal. -/
theorem literal_fmt_ignore_cx :
    FormatItem.fmt_ignore (.Literal "a") none none none = true ∧
    OwnedFormatItem.fmt_ignore (.Literal "a") none none none = true := by
  constructor <;> rfl

/-- C2 amended: for every literal format item and every projection, the
ignorability predicate on that literal is `true` — a literal is always
ignorable, for both `FormatItem` and `OwnedFormatItem`. -/
theorem literal_fmt_ignore_true (bytes : String) (d : Option Date) (t : Option Time)
    (o : Option UtcOffset) :
    FormatItem.fmt_ignore (.Literal bytes) d t o = true ∧
    OwnedFormatItem.fmt_ignore (.Literal bytes) d t o = true := by
  constructor <;> rfl

/-- C3 counterexample: a first-match item whose first alternative (a
literal) is ignorable but whose second alternative (a `Day` component)
is not is itself not ignorable, refuting the claim that only the first
element decides. -/
theorem first_fmt_ignore_cx :
    FormatItem.fmt_ignore (.First [.Literal "a", .Component .Day]) none none none = false ∧
    FormatItem.fmt_ignore (.Literal "a") none none none = true := by
  constructor <;> rfl

/-- C3 amended: a first-match item is ignorable iff every element of its
alternative list is ignorable (so the empty list is ignorable); the
predicate delegates to the slice implementation, not to the first
element alone. -/
theorem first_fmt_ignore_eq_all (items : List FormatItem) (d : Option Date) (t : Option Time)
    (o : Option UtcOffset) :
    FormatItem.fmt_ignore (.First items) d t o = items.all fun i => i.fmt_ignore d t o := by
  rw [FormatItem.fmt_ignore, fmt_ignore_slice_eq_all]

/-- C4: RFC 3339 formatting on the fixed cases: 2024-03-14 01:02:03 at
+00:00 gives exactly "2024-03-14T01:02:03Z"; at +05:30 it gives
"2024-03-14T01:02:03+05:30"; with nanosecond 120000000 the fraction is
exactly ".12" (minimal width 2, trailing zeros trimmed). -/
theorem rfc3339_fixed_cases :
    Rfc3339.format_into (some ⟨2024, 3, 14, 3⟩) (some ⟨1, 2, 3, 0⟩) (some ⟨0, 0, 0⟩) =
      .ok (20, "2024-03-14T01:02:03Z") ∧
    Rfc3339.format_into (some ⟨2024, 3, 14, 3⟩) (some ⟨1, 2, 3, 0⟩) (some ⟨5, 30, 0⟩) =
      .ok (25, "2024-03-14T01:02:03+05:30") ∧
    Rfc3339.format_into (some ⟨2024, 3, 14, 3⟩) (some ⟨1, 2, 3, 120000000⟩) (some ⟨0, 0, 0⟩) =
      .ok (23, "2024-03-14T01:02:03.12Z") := ⟨rfl, rfl, rfl⟩

/-- C5 counterexample: on a date whose year fails RFC 3339's year
validation (year 10000), formatting with a nonzero offset-second field
reports `InvalidComponent "year"`, not `InvalidComponent
"offset_second"`, refuting the claim's "regardless of the date and time
values". -/
theorem rfc3339_year_error_cx :
    Rfc3339.format_into (some ⟨10000, 1, 1, 0⟩) (some ⟨0, 0, 0, 0⟩) (some ⟨0, 0, 30⟩) =
      .error (error.Format.InvalidComponent "year") := by rfl

/-- C5 amended: for every date whose year passes both formats' year
validation (1900 ≤ year for RFC 2822, 0 ≤ year < 10000 for RFC 3339) and
every time, formatting with an offset whose seconds-past-minute field is
nonzero fails with `InvalidComponent "offset_second"` under both RFC
2822 and RFC 3339. -/
theorem offset_second_invalid_component (d : Date) (t : Time) (o : UtcOffset)
    (hsec : o.seconds ≠ 0) (h2822 : 1900 ≤ d.year)
    (h3339 : 0 ≤ d.year ∧ d.year < 10000) :
    Rfc2822.format_into (some d) (some t) (some o) =
      .error (error.Format.InvalidComponent "offset_second") ∧
    Rfc3339.format_into (some d) (some t) (some o) =
      .error (error.Format.InvalidComponent "offset_second") := by
  constructor
  · rw [Rfc2822.format_into]
    simp only [getOrInsufficient, exc_ok_bind, Date.to_calendar_date,
      UtcOffset.seconds_past_minute]
    rw [if_neg (by omega), if_pos hsec]
    rfl
  · rw [Rfc3339.format_into]
    simp only [getOrInsufficient, exc_ok_bind, UtcOffset.seconds_past_minute]
    rw [if_neg (not_not_intro h3339), if_pos hsec]
    rfl

/-- C5 witness: the amended theorem applied at year 2000, midnight, and
offset seconds 30. -/
theorem offset_second_invalid_component_witness :
    ((⟨0, 0, 30⟩ : UtcOffset).seconds ≠ 0 ∧ (1900 : Int) ≤ 2000 ∧
      (0 : Int) ≤ 2000 ∧ (2000 : Int) < 10000) ∧
    (Rfc2822.format_into (some ⟨2000, 1, 1, 5⟩) (some ⟨0, 0, 0, 0⟩) (some ⟨0, 0, 30⟩) =
      .error (error.Format.InvalidComponent "offset_second") ∧
    Rfc3339.format_into (some ⟨2000, 1, 1, 5⟩) (some ⟨0, 0, 0, 0⟩) (some ⟨0, 0, 30⟩) =
      .error (error.Format.InvalidComponent "offset_second")) :=
  ⟨by decide,
    offset_second_invalid_component ⟨2000, 1, 1, 5⟩ ⟨0, 0, 0, 0⟩ ⟨0, 0, 30⟩
      (by decide) (by decide) (by decide)⟩

/-- C6: whenever at least one projection slot is absent, formatting with
the RFC 2822 or the RFC 3339 marker returns the
insufficient-type-information error (so either encoder can succeed only
when all three slots are present). -/
theorem rfc_requires_all_slots (d : Option Date) (t : Option Time) (o : Option UtcOffset)
    (h : d.isNone ∨ t.isNone ∨ o.isNone) :
    Rfc2822.format_into d t o = .error .InsufficientTypeInformation ∧
    Rfc3339.format_into d t o = .error .InsufficientTypeInformation := by
  constructor <;> (cases d <;> cases t <;> cases o <;> first | rfl | simp at h)

/-- C6 witness: the theorem applied with the date slot absent. -/
theorem rfc_requires_all_slots_witness :
    ((none : Option Date).isNone ∨ (some ⟨0, 0, 0, 0⟩ : Option Time).isNone ∨
      (some ⟨0, 0, 0⟩ : Option UtcOffset).isNone) ∧
    (Rfc2822.format_into none (some ⟨0, 0, 0, 0⟩) (some ⟨0, 0, 0⟩) =
      .error .InsufficientTypeInformation ∧
    Rfc3339.format_into none (some ⟨0, 0, 0, 0⟩) (some ⟨0, 0, 0⟩) =
      .error .InsufficientTypeInformation) :=
  ⟨by decide, rfc_requires_all_slots none (some ⟨0, 0, 0, 0⟩) (some ⟨0, 0, 0⟩) (by decide)⟩

/-- C7: for every projection and component renderer, a first-match item
with an empty alternative list evaluates to 0 bytes and no error, and
one with a non-empty list evaluates to exactly the result of its first
element under `suppressible = false` — later alternatives never
contribute. -/
theorem first_match_formatting
    (fmtComp : Component → Option Date → Option Time → Option UtcOffset →
      Except error.Format (Nat × String))
    (d : Option Date) (t : Option Time) (o : Option UtcOffset) :
    FormatItem.format_into fmtComp (.First []) false d t o = .ok (0, "") ∧
    ∀ (item : FormatItem) (rest : List FormatItem),
      FormatItem.format_into fmtComp (.First (item :: rest)) false d t o =
        item.format_into fmtComp false d t o := by
  constructor
  · rw [FormatItem.format_into.eq_def]; simp
  · intro item rest
    rw [FormatItem.format_into.eq_def]; simp

/-- C8: whenever the body of the ISO 8601 formatter would return
successfully with zero total bytes (as a parsing-only configuration
does), the formatter panics with the parsing-only message instead of
returning a value of the ordinary `error.Format` taxonomy. -/
theorem iso8601_parsing_only_panics
    (fmtDate : Date → Except error.Format (Nat × String))
    (fmtTime : Time → Except error.Format (Nat × String))
    (fmtOffset : UtcOffset → Except error.Format (Nat × String))
    (config : Iso8601Config) (d : Option Date) (t : Option Time) (o : Option UtcOffset)
    (s : String) (h : Iso8601.run fmtDate fmtTime fmtOffset config d t o = .ok (0, s)) :
    Iso8601.format_into fmtDate fmtTime fmtOffset config d t o =
      .panicked "attempted to format a parsing-only format description" := by
  unfold Iso8601.format_into
  rw [h]

/-- C8 witness: the theorem applied to the configuration with all three
emission flags off (the parsing-only configuration), whose body
produces zero bytes whatever the sub-formatters do. -/
theorem iso8601_parsing_only_panics_witness :
    Iso8601.run (fun _ => .ok (1, "D")) (fun _ => .ok (1, "T")) (fun _ => .ok (1, "O"))
      ⟨false, false, false⟩ none none none = .ok (0, "") ∧
    Iso8601.format_into (fun _ => .ok (1, "D")) (fun _ => .ok (1, "T")) (fun _ => .ok (1, "O"))
      ⟨false, false, false⟩ none none none =
      .panicked "attempted to format a parsing-only format description" :=
  ⟨rfl, iso8601_parsing_only_panics _ _ _ ⟨false, false, false⟩ none none none "" rfl⟩

/-- C9: under every subsecond digit policy (the default one-or-more
included), the time 00:00:00.0 makes both the second and the subsecond
component ignorable, while the time with second 0 and nanosecond
500000000 makes the second component ignorable but the subsecond
component non-ignorable. -/
theorem second_subsecond_ignorability (dig : SubsecondDigits) (d : Option Date)
    (o : Option UtcOffset) :
    Component.fmt_ignore .Second d (some ⟨0, 0, 0, 0⟩) o = true ∧
    Component.fmt_ignore (.Subsecond ⟨dig⟩) d (some ⟨0, 0, 0, 0⟩) o = true ∧
    Component.fmt_ignore .Second d (some ⟨0, 0, 0, 500000000⟩) o = true ∧
    Component.fmt_ignore (.Subsecond ⟨dig⟩) d (some ⟨0, 0, 0, 500000000⟩) o = false := by
  refine ⟨rfl, ?_, rfl, ?_⟩ <;> cases dig <;> rfl

/-- C10: the ignorability predicate of each well-known marker — RFC
2822, RFC 3339, and ISO 8601 under any configuration — is `false` on
every projection, so a well-known marker is never suppressed from a
suppressible position. -/
theorem well_known_never_ignorable (config : Iso8601Config) (d : Option Date)
    (t : Option Time) (o : Option UtcOffset) :
    Rfc2822.fmt_ignore d t o = false ∧ Rfc3339.fmt_ignore d t o = false ∧
    Iso8601.fmt_ignore config d t o = false := ⟨rfl, rfl, rfl⟩

end TimeSpec
